import Mathlib

/-!
Verification development for the payment-confirm operation of the hyperswitch
repository (crates/router/src/core/payments/operations/payment_confirm.rs) and
for the user-role administration module (crates/router/src/core/user_role.rs).

The Rust code is shallowly embedded: the backing store is an explicit record of
entity tables threaded through each operation, asynchronous fan-out batches are
determinized (every spawned task's store effect is applied, and the joined inner
results are then examined in the same program order as in the source), and
helper functions that live outside the provided sources are either modelled
from the specification (marked `Modelled from the spec:`) or abstracted as
explicit function parameters collected in an environment record.
-/

set_option maxHeartbeats 1000000

/-- Status of a payment intent (storage_enums::IntentStatus). -/
inductive IntentStatus
  | succeeded
  | failed
  | cancelled
  | processing
  | requiresCustomerAction
  | requiresMerchantAction
  | requiresPaymentMethod
  | requiresConfirmation
  | requiresCapture
deriving DecidableEq

/-- Status of a payment attempt (storage_enums::AttemptStatus restricted to the
variants the confirm operation manipulates, plus a generic initial state). -/
inductive AttemptStatus
  | started
  | pending
  | unresolved
  | failure
deriving DecidableEq

/-- Fraud-prevention suggestion (api_models::enums::FrmSuggestion).  The confirm
operation names only the first two variants; any further variant falls into the
wildcard arm of its match, so one representative extra variant is kept. -/
inductive FrmSuggestion
  | frmCancelTransaction
  | frmManualReview
  | frmAutoRefund
deriving DecidableEq

/-- Error kinds of errors::ApiErrorResponse that the embedded code produces. -/
inductive ApiError
  | paymentNotFound
  | internalServerError
  | notAllowedInCurrentState
  | paymentMethodNotFound
  | invalidDataValue (field : String)
  | missingRequiredField (field : String)
  | validationFailed (msg : String)
deriving DecidableEq

/-- Errors surfaced by the storage layer. -/
inductive StorageError
  | notFound
  | databaseError
deriving DecidableEq

/-- Embeds Rust Option::or - the first operand wins when it is present. -/
def optOr {α : Type} (a b : Option α) : Option α :=
  match a with
  | some x => some x
  | none => b

theorem optOr_some {α : Type} (v : α) (b : Option α) : optOr (some v) b = some v := rfl

theorem optOr_none {α : Type} (b : Option α) : optOr none b = b := rfl

/-- Embeds StorageErrorExt::to_not_found_response - a storage not-found result
is replaced by the given API error, any other storage error becomes an
internal server error. -/
def to_not_found_response {α : Type} (e : ApiError) :
    Except StorageError α → Except ApiError α
  | .ok a => .ok a
  | .error .notFound => .error e
  | .error .databaseError => .error .internalServerError

/-- Boolean test for a successful Except result. -/
def except_is_ok {ε α : Type} : Except ε α → Bool
  | .ok _ => true
  | .error _ => false

instance exceptDecidableEq {ε α : Type} [DecidableEq ε] [DecidableEq α] :
    DecidableEq (Except ε α) := fun a b =>
  match a, b with
  | .ok x, .ok y =>
    if h : x = y then .isTrue (congrArg Except.ok h)
    else .isFalse (fun hh => h (Except.ok.inj hh))
  | .error x, .error y =>
    if h : x = y then .isTrue (congrArg Except.error h)
    else .isFalse (fun hh => h (Except.error.inj hh))
  | .ok _, .error _ => .isFalse (fun hh => Except.noConfusion hh)
  | .error _, .ok _ => .isFalse (fun hh => Except.noConfusion hh)

/-- Address row (shipping or billing). -/
structure Address where
  address_id : String
  merchant_id : String
  customer_id : Option String
  payload : String
deriving DecidableEq

/-- Connector-response row correlated with one payment attempt. -/
structure ConnectorResponse where
  payment_id : String
  merchant_id : String
  attempt_id : String
deriving DecidableEq

/-- Customer row. -/
structure Customer where
  customer_id : String
  merchant_id : String
  data : String
deriving DecidableEq

/-- Payment-intent row (the durable record of a payment). -/
structure PaymentIntent where
  payment_id : String
  merchant_id : String
  status : IntentStatus
  amount : Nat
  currency : Option String
  active_attempt : String
  customer_id : Option String
  shipping_address_id : Option String
  billing_address_id : Option String
  return_url : Option String
  setup_future_usage : Option String
  order_details : Option String
  metadata : Option String
  connector_metadata : Option String
  feature_metadata : Option String
  allowed_payment_method_types : Option String
  business_country : Option String
  business_label : Option String
  description : Option String
  statement_descriptor_name : Option String
  statement_descriptor_suffix : Option String
  payment_confirm_source : Option String
  client_secret : Option String
  payment_link_id : Option String
deriving DecidableEq

/-- Payment-attempt row (one concrete execution attempt of an intent). -/
structure PaymentAttempt where
  attempt_id : String
  payment_id : String
  merchant_id : String
  status : AttemptStatus
  amount : Nat
  currency : Option String
  payment_method : Option String
  payment_method_type : Option String
  payment_experience : Option String
  capture_method : Option String
  browser_info : Option String
  business_sub_label : Option String
  payment_token : Option String
  connector : Option String
  straight_through_algorithm : Option String
  authentication_type : Option String
  mandate_details : Option String
  payment_method_data : Option String
  error_code : Option String
  error_message : Option String
  amount_capturable : Option Nat
deriving DecidableEq

/-- Inline merchant connector credentials carried by a request. -/
structure MerchantConnectorDetails where
  creds_identifier : String
  creds : String
deriving DecidableEq

/-- The confirmation request (api::PaymentsRequest restricted to the fields the
confirm operation reads). -/
structure PaymentsRequest where
  merchant_id : Option String
  customer_id : Option String
  shipping : Option String
  billing : Option String
  merchant_connector_details : Option MerchantConnectorDetails
  client_secret : Option String
  routing : Option String
  payment_method : Option String
  payment_method_type : Option String
  payment_method_data : Option String
  setup_future_usage : Option String
  return_url : Option String
  metadata : Option String
  order_details : Option String
  connector_metadata : Option String
  feature_metadata : Option String
  allowed_payment_method_types : Option String
  browser_info : Option String
  payment_experience : Option String
  capture_method : Option String
  business_sub_label : Option String
  confirm : Option Bool
  email : Option String
  card_cvc : Option String
  manual_retry : Bool
deriving DecidableEq

/-- Setup-mandate data carried inside the mandate-resolution result. -/
structure SetupMandate where
  mandate_type : Option String
  customer_acceptance : Option String
deriving DecidableEq

/-- Result tuple of helpers::get_token_pm_type_mandate_details. -/
structure MandateDetails where
  token : Option String
  payment_method : Option String
  payment_method_type : Option String
  setup_mandate : Option SetupMandate
  recurring_mandate_payment_data : Option String
  mandate_connector : Option String
deriving DecidableEq

/-- Fraud-check message attached to the working record. -/
structure FrmMessage where
  frm_status : String
  frm_reason : Option String
deriving DecidableEq

/-- The in-memory working record (PaymentData) produced by get_trackers and
consumed by update_trackers. -/
structure PaymentData where
  payment_intent : PaymentIntent
  payment_attempt : PaymentAttempt
  currency : String
  amount : Nat
  connector_response : ConnectorResponse
  email : Option String
  setup_mandate : Option SetupMandate
  token : Option String
  shipping_address : Option Address
  billing_address : Option Address
  confirm : Option Bool
  payment_method_data : Option String
  card_cvc : Option String
  creds_identifier : Option String
  frm_message : Option FrmMessage
deriving DecidableEq

/-- The backing entity store: one table per entity kind. -/
structure Store where
  intents : List PaymentIntent
  attempts : List PaymentAttempt
  addresses : List Address
  configs : List (String × String)
  connector_responses : List ConnectorResponse
  customers : List Customer
  tokens : List (String × String)
deriving DecidableEq

/-- Key predicate for the intent table. -/
def intent_match (payment_id merchant_id : String) (pi : PaymentIntent) : Bool :=
  decide (pi.payment_id = payment_id ∧ pi.merchant_id = merchant_id)

/-- Embeds find_payment_intent_by_payment_id_merchant_id. -/
def find_payment_intent (store : Store) (payment_id merchant_id : String) :
    Option PaymentIntent :=
  store.intents.find? (intent_match payment_id merchant_id)

/-- Key predicate for the attempt table. -/
def attempt_match (payment_id merchant_id attempt_id : String) (pa : PaymentAttempt) : Bool :=
  decide (pa.payment_id = payment_id ∧ pa.merchant_id = merchant_id ∧ pa.attempt_id = attempt_id)

/-- Embeds find_payment_attempt_by_payment_id_merchant_id_attempt_id. -/
def find_payment_attempt (store : Store) (payment_id merchant_id attempt_id : String) :
    Option PaymentAttempt :=
  store.attempts.find? (attempt_match payment_id merchant_id attempt_id)

/-- Key predicate for the connector-response table. -/
def connector_response_match (payment_id merchant_id attempt_id : String)
    (cr : ConnectorResponse) : Bool :=
  decide (cr.payment_id = payment_id ∧ cr.merchant_id = merchant_id ∧ cr.attempt_id = attempt_id)

/-- Finds the connector-response row of one attempt. -/
def find_connector_response (store : Store) (payment_id merchant_id attempt_id : String) :
    Option ConnectorResponse :=
  store.connector_responses.find? (connector_response_match payment_id merchant_id attempt_id)

/-- Key predicate for the customer table. -/
def customer_match (customer_id merchant_id : String) (c : Customer) : Bool :=
  decide (c.customer_id = customer_id ∧ c.merchant_id = merchant_id)

/-- Finds a customer row. -/
def find_customer (store : Store) (customer_id merchant_id : String) : Option Customer :=
  store.customers.find? (customer_match customer_id merchant_id)

/-- Finds an address row by its identifier. -/
def find_address (store : Store) (address_id : String) : Option Address :=
  store.addresses.find? (fun a => decide (a.address_id = address_id))

/-- Looks a configuration value up by key. -/
def lookup_config (store : Store) (key : String) : Option String :=
  (store.configs.find? (fun kv => decide (kv.1 = key))).map (fun kv => kv.2)

/-- Resolves a stored payment token. -/
def lookup_token (store : Store) (token : String) : Option String :=
  (store.tokens.find? (fun kv => decide (kv.1 = token))).map (fun kv => kv.2)

/-- Replaces the first element matching p by its image under f, returning the
new element and the new list; none when no element matches. -/
def update_first {α : Type} (p : α → Bool) (f : α → α) : List α → Option (α × List α)
  | [] => none
  | a :: rest =>
    if p a then
      some (f a, f a :: rest)
    else
      match update_first p f rest with
      | none => none
      | some (x, l) => some (x, a :: l)

theorem update_first_none_iff {α : Type} (p : α → Bool) (f : α → α) (l : List α) :
    update_first p f l = none ↔ l.find? p = none := by
  induction l with
  | nil => simp [update_first, List.find?]
  | cons a rest ih =>
    by_cases hpa : p a
    · simp [update_first, hpa, List.find?_cons, ih]
    · simp only [update_first, hpa, Bool.false_eq_true, if_false, List.find?_cons]
      cases hrec : update_first p f rest with
      | none => simp [hrec, hpa, ih.mp hrec]
      | some xl =>
        have : rest.find? p ≠ none := by
          intro hn
          rw [← ih] at hn
          rw [hn] at hrec
          exact Option.noConfusion hrec
        cases hfind : rest.find? p with
        | none => exact absurd hfind this
        | some b => simp [hpa]

theorem update_first_find {α : Type} {p : α → Bool} {f : α → α} {l : List α}
    {x : α} {l2 : List α}
    (hp : ∀ a, p a = true → p (f a) = true)
    (h : update_first p f l = some (x, l2)) :
    l2.find? p = some x ∧ p x = true := by
  induction l generalizing x l2 with
  | nil => simp [update_first] at h
  | cons a rest ih =>
    by_cases hpa : p a
    · simp only [update_first, hpa, if_true] at h
      obtain ⟨hx, hl⟩ := Prod.mk.injEq .. ▸ Option.some.injEq .. ▸ h
      subst hx
      subst hl
      constructor
      · simp [List.find?_cons, hp a hpa]
      · exact hp a hpa
    · simp only [update_first, hpa, Bool.false_eq_true, if_false] at h
      cases hrec : update_first p f rest with
      | none => rw [hrec] at h; exact Option.noConfusion h
      | some xl =>
        rw [hrec] at h
        obtain ⟨x0, l0⟩ := xl
        obtain ⟨hx, hl⟩ := Prod.mk.injEq .. ▸ Option.some.injEq .. ▸ h
        subst hx
        subst hl
        obtain ⟨hfind, hpx⟩ := ih hrec
        exact ⟨by simp [List.find?_cons, hpa, hfind], hpx⟩

theorem update_first_of_find {α : Type} {p : α → Bool} (f : α → α) {l : List α} {a : α}
    (h : l.find? p = some a) :
    ∃ x l2, update_first p f l = some (x, l2) := by
  cases hu : update_first p f l with
  | none => rw [(update_first_none_iff p f l).mp hu] at h; exact Option.noConfusion h
  | some xl => exact ⟨xl.1, xl.2, by simp [hu]⟩

/-- The ConfirmUpdate variant of storage::PaymentAttemptUpdate, with exactly the
fields built at lines 644-661 of payment_confirm.rs. -/
structure PaymentAttemptUpdate where
  amount : Nat
  currency : String
  status : AttemptStatus
  payment_method : Option String
  authentication_type : Option String
  browser_info : Option String
  connector : Option String
  payment_token : Option String
  payment_method_data : Option String
  payment_method_type : Option String
  payment_experience : Option String
  business_sub_label : Option String
  straight_through_algorithm : Option String
  error_code : Option (Option String)
  error_message : Option (Option String)
  amount_capturable : Option Nat
deriving DecidableEq

/-- The Update variant of storage::PaymentIntentUpdate, with exactly the fields
built at lines 687-704 of payment_confirm.rs. -/
structure PaymentIntentUpdate where
  amount : Nat
  currency : String
  setup_future_usage : Option String
  status : IntentStatus
  customer_id : Option String
  shipping_address_id : Option String
  billing_address_id : Option String
  return_url : Option String
  business_country : Option String
  business_label : Option String
  description : Option String
  statement_descriptor_name : Option String
  statement_descriptor_suffix : Option String
  order_details : Option String
  metadata : Option String
  payment_confirm_source : Option String
deriving DecidableEq

/-- Applies a ConfirmUpdate patch to a stored attempt row.  Plain optional
columns are overwritten; the doubly-optional error columns follow the patch
convention that an absent outer value leaves the column unchanged. -/
def apply_attempt_update (row : PaymentAttempt) (u : PaymentAttemptUpdate) : PaymentAttempt :=
  { row with
    amount := u.amount
    currency := some u.currency
    status := u.status
    payment_method := u.payment_method
    authentication_type := u.authentication_type
    browser_info := u.browser_info
    connector := u.connector
    payment_token := u.payment_token
    payment_method_data := u.payment_method_data
    payment_method_type := u.payment_method_type
    payment_experience := u.payment_experience
    business_sub_label := u.business_sub_label
    straight_through_algorithm := u.straight_through_algorithm
    error_code := match u.error_code with
      | none => row.error_code
      | some v => v
    error_message := match u.error_message with
      | none => row.error_message
      | some v => v
    amount_capturable := match u.amount_capturable with
      | none => row.amount_capturable
      | some v => some v }

/-- Applies an intent Update patch to a stored intent row. -/
def apply_intent_update (row : PaymentIntent) (u : PaymentIntentUpdate) : PaymentIntent :=
  { row with
    amount := u.amount
    currency := some u.currency
    setup_future_usage := u.setup_future_usage
    status := u.status
    customer_id := u.customer_id
    shipping_address_id := u.shipping_address_id
    billing_address_id := u.billing_address_id
    return_url := u.return_url
    business_country := u.business_country
    business_label := u.business_label
    description := u.description
    statement_descriptor_name := u.statement_descriptor_name
    statement_descriptor_suffix := u.statement_descriptor_suffix
    order_details := u.order_details
    metadata := u.metadata
    payment_confirm_source := u.payment_confirm_source }

/-- Embeds update_payment_attempt_with_attempt_id: the stored row addressed by
the given attempt's keys is patched; a missing row is a storage not-found. -/
def db_update_payment_attempt (store : Store) (attempt : PaymentAttempt)
    (u : PaymentAttemptUpdate) : Store × Except StorageError PaymentAttempt :=
  match update_first (attempt_match attempt.payment_id attempt.merchant_id attempt.attempt_id)
      (fun row => apply_attempt_update row u) store.attempts with
  | none => (store, .error .notFound)
  | some (row2, l) => ({ store with attempts := l }, .ok row2)

/-- Embeds update_payment_intent: the stored row addressed by the given
intent's keys is patched; a missing row is a storage not-found. -/
def db_update_payment_intent (store : Store) (intent : PaymentIntent)
    (u : PaymentIntentUpdate) : Store × Except StorageError PaymentIntent :=
  match update_first (intent_match intent.payment_id intent.merchant_id)
      (fun row => apply_intent_update row u) store.intents with
  | none => (store, .error .notFound)
  | some (row2, l) => ({ store with intents := l }, .ok row2)

/-- Embeds update_customer_by_customer_id_merchant_id: the stored customer row
is patched; a missing row is a storage not-found. -/
def db_update_customer (store : Store) (customer_id merchant_id patch : String) :
    Store × Except StorageError Customer :=
  match update_first (customer_match customer_id merchant_id)
      (fun row => { row with data := patch }) store.customers with
  | none => (store, .error .notFound)
  | some (row2, l) => ({ store with customers := l }, .ok row2)

/-- Embeds the status-transition match of update_trackers (payment_confirm.rs
lines 557-578): the committed intent/attempt status pair and the error
code/message patch are selected from the fraud-prevention suggestion. -/
def frm_status_transition (frm_suggestion : Option FrmSuggestion)
    (frm_message : Option FrmMessage) :
    IntentStatus × AttemptStatus × (Option (Option String) × Option (Option String)) :=
  match frm_suggestion with
  | some .frmCancelTransaction =>
    (.failed, .failure,
      match frm_message with
      | none => (none, none)
      | some fraud_check =>
        (some (some fraud_check.frm_status), some fraud_check.frm_reason))
  | some .frmManualReview => (.requiresMerchantAction, .unresolved, (none, none))
  | _ => (.processing, .pending, (none, none))

/-- The ConfirmUpdate attempt patch built by update_trackers
(payment_confirm.rs lines 644-661). -/
def confirm_attempt_update (payment_data : PaymentData) (attempt_status : AttemptStatus)
    (error_code error_message : Option (Option String))
    (additional_pm_data : Option String) : PaymentAttemptUpdate :=
  { amount := payment_data.amount
    currency := payment_data.currency
    status := attempt_status
    payment_method := payment_data.payment_attempt.payment_method
    authentication_type := payment_data.payment_attempt.authentication_type
    browser_info := payment_data.payment_attempt.browser_info
    connector := payment_data.payment_attempt.connector
    payment_token := payment_data.token
    payment_method_data := additional_pm_data
    payment_method_type := payment_data.payment_attempt.payment_method_type
    payment_experience := payment_data.payment_attempt.payment_experience
    business_sub_label := payment_data.payment_attempt.business_sub_label
    straight_through_algorithm := payment_data.payment_attempt.straight_through_algorithm
    error_code := error_code
    error_message := error_message
    amount_capturable := some payment_data.payment_attempt.amount }

/-- The Update intent patch built by update_trackers (payment_confirm.rs lines
687-704). -/
def confirm_intent_update (payment_data : PaymentData) (intent_status : IntentStatus)
    (customer : Option Customer) (payment_confirm_source : Option String) :
    PaymentIntentUpdate :=
  { amount := payment_data.amount
    currency := payment_data.currency
    setup_future_usage := payment_data.payment_intent.setup_future_usage
    status := intent_status
    customer_id := customer.map (fun c => c.customer_id)
    shipping_address_id := payment_data.payment_intent.shipping_address_id
    billing_address_id := payment_data.payment_intent.billing_address_id
    return_url := payment_data.payment_intent.return_url
    business_country := payment_data.payment_intent.business_country
    business_label := payment_data.payment_intent.business_label
    description := payment_data.payment_intent.description
    statement_descriptor_name := payment_data.payment_intent.statement_descriptor_name
    statement_descriptor_suffix := payment_data.payment_intent.statement_descriptor_suffix
    order_details := payment_data.payment_intent.order_details
    metadata := payment_data.payment_intent.metadata
    payment_confirm_source := payment_confirm_source }

/-- Embeds PaymentConfirm::update_trackers (payment_confirm.rs lines 534-746).
The three writes are issued as concurrent tasks whose store effects all apply;
the joined inner results are then examined in the source's program order: the
intent result first, then the attempt result, while the customer task's inner
result is bound to a wildcard in the source and therefore discarded.
get_additional_payment_data (a helper outside the provided sources) is an
abstract encoding parameter. -/
def update_trackers (get_additional_payment_data : String → String)
    (store : Store) (payment_data : PaymentData)
    (customer : Option Customer) (updated_customer : Option String)
    (frm_suggestion : Option FrmSuggestion)
    (payment_confirm_source : Option String) :
    Store × Except ApiError PaymentData :=
  let frm_message := payment_data.frm_message
  let t := frm_status_transition frm_suggestion frm_message
  let intent_status := t.1
  let attempt_status := t.2.1
  let error_code := t.2.2.1
  let error_message := t.2.2.2
  let additional_pm_data := payment_data.payment_method_data.map get_additional_payment_data
  let attempt_update :=
    confirm_attempt_update payment_data attempt_status error_code error_message
      additional_pm_data
  let intent_update :=
    confirm_intent_update payment_data intent_status customer payment_confirm_source
  let attempt_step := db_update_payment_attempt store payment_data.payment_attempt attempt_update
  let attempt_task : Except ApiError PaymentAttempt :=
    to_not_found_response .paymentNotFound attempt_step.2
  let intent_step := db_update_payment_intent attempt_step.1 payment_data.payment_intent intent_update
  let intent_task : Except ApiError PaymentIntent :=
    to_not_found_response .paymentNotFound intent_step.2
  let customer_step :=
    match updated_customer, customer with
    | some patch, some c =>
      let s := db_update_customer intent_step.1 c.customer_id c.merchant_id patch
      (s.1,
        match s.2 with
        | .ok _ => Except.ok ()
        | .error _ => Except.error ApiError.internalServerError)
    | _, _ => (intent_step.1, Except.ok ())
  let store3 := customer_step.1
  let _customer_task : Except ApiError Unit := customer_step.2
  match intent_task with
  | .error e => (store3, .error e)
  | .ok intent2 =>
    match attempt_task with
    | .error e => (store3, .error e)
    | .ok attempt2 =>
      (store3, .ok { payment_data with payment_intent := intent2, payment_attempt := attempt2 })

/-- Abstracted collaborators of get_trackers whose implementations live outside
the provided sources: the joined result of the mandate/token resolution task,
the outcomes of the pure validators, and the merchant fulfillment-time lookup.
Each claim instantiates or constrains them explicitly. -/
structure ConfirmEnv where
  mandate_details : Except ApiError MandateDetails
  customer_access : Except ApiError Unit
  fulfillment_time : Except ApiError (Option Nat)
  client_secret_auth : Except ApiError Unit
  validate_card_data : Option String → Except ApiError Unit
  validate_pm_or_token_given :
    Option String → Option String → Option String → Option String → Option String →
      Except ApiError Unit
  validate_customer_id_mandatory_cases :
    Bool → Bool → Bool → Option String → Except ApiError Unit

/-- The status list passed to the not-allowed-status validation by
PaymentConfirm::get_trackers (payment_confirm.rs lines 102-112). -/
def confirm_not_allowed_statuses : List IntentStatus :=
  [.cancelled, .succeeded, .processing, .requiresCapture, .requiresMerchantAction]

/-- Modelled from the spec: helpers::validate_payment_status_against_not_allowed_statuses
is not under src; per the spec, confirmation on a status in the blocked list
fails with a NotAllowedInCurrentState error before any mutation. -/
def validate_payment_status_against_not_allowed_statuses
    (status : IntentStatus) (blocked : List IntentStatus) : Except ApiError Unit :=
  if status ∈ blocked then .error .notAllowedInCurrentState else .ok ()

/-- Modelled from the spec: helpers::create_or_find_address_for_payment_by_request
is not under src; per the spec, addresses are resolved by find-or-create - an
existing referenced address is found (and replaced wholesale when the request
supplies a new payload), a request-supplied address without an existing
reference is inserted, and no address resolves otherwise. -/
def create_or_find_address_for_payment_by_request (store : Store)
    (request_address : Option String) (address_id : Option String)
    (merchant_id : String) (customer_id : Option String)
    (payment_id : String) (tag : String) : Store × Option Address :=
  match address_id with
  | some aid =>
    match find_address store aid with
    | some addr =>
      match request_address with
      | some payload =>
        let addr2 := { addr with payload := payload }
        ({ store with
            addresses := store.addresses.map (fun a => if a.address_id = aid then addr2 else a) },
          some addr2)
      | none => (store, some addr)
    | none => (store, none)
  | none =>
    match request_address with
    | some payload =>
      let addr2 : Address :=
        { address_id := payment_id ++ "_" ++ tag
          merchant_id := merchant_id
          customer_id := customer_id
          payload := payload }
      ({ store with addresses := addr2 :: store.addresses }, some addr2)
    | none => (store, none)

/-- Configuration key used for inline merchant connector credentials. -/
def mcd_config_key (merchant_id creds_identifier : String) : String :=
  "mcd_" ++ merchant_id ++ "_" ++ creds_identifier

/-- Modelled from the spec: helpers::insert_merchant_connector_creds_to_config
is not under src; per the spec, inline connector credentials supplied by the
request are upserted into the config table. -/
def insert_merchant_connector_creds_to_config (store : Store) (merchant_id : String)
    (mcd : MerchantConnectorDetails) : Store :=
  let key := mcd_config_key merchant_id mcd.creds_identifier
  match lookup_config store key with
  | some _ =>
    { store with
        configs := store.configs.map (fun kv => if kv.1 = key then (key, mcd.creds) else kv) }
  | none => { store with configs := (key, mcd.creds) :: store.configs }

/-- Attempt-versioning policy outcome (helpers::AttemptType). -/
inductive AttemptType
  | sameOld
  | new
deriving DecidableEq

/-- Modelled from the spec: helpers::get_attempt_type is not under src; per the
spec, a new attempt is chosen only on an explicit retry/new-attempt signal in
the request, and ambiguous or missing signaling defaults to modifying the
existing attempt in place. -/
def get_attempt_type (request : PaymentsRequest) : AttemptType :=
  if request.manual_retry then .new else .sameOld

/-- Modelled from the spec: AttemptType::New's creation of a fresh attempt is
not under src; per the spec, the new attempt gets a new identifier and inherits
the amount/currency/customer linkage of the old attempt, with a fresh status. -/
def make_new_attempt (old : PaymentAttempt) : PaymentAttempt :=
  { old with attempt_id := old.attempt_id ++ "_retry", status := .started }

/-- Embeds the request-merge block of PaymentConfirm::get_trackers
(payment_confirm.rs lines 306-411): every optional override supplied by the
request wins over the stored value, otherwise the stored value is preserved;
the embedded validators run at their source positions.  Returns the merged
intent, the merged attempt, the resolved token, the required currency, the
amount and the merged setup mandate. -/
def merge_request_fields (env : ConfirmEnv) (mandate_type : Option String)
    (request : PaymentsRequest) (md : MandateDetails)
    (payment_intent : PaymentIntent) (payment_attempt : PaymentAttempt)
    (shipping_address billing_address : Option Address) :
    Except ApiError
      (PaymentIntent × PaymentAttempt × Option String × String × Nat × Option SetupMandate) :=
  let payment_intent :=
    { payment_intent with
        order_details := optOr request.order_details payment_intent.order_details
        setup_future_usage := optOr request.setup_future_usage payment_intent.setup_future_usage }
  let browser_info := optOr request.browser_info payment_attempt.browser_info
  match env.validate_card_data request.payment_method_data with
  | .error e => .error e
  | .ok _ =>
    let token := optOr md.token payment_attempt.payment_token
    match env.validate_pm_or_token_given request.payment_method request.payment_method_data
        request.payment_method_type mandate_type token with
    | .error e => .error e
    | .ok _ =>
      let payment_attempt :=
        { payment_attempt with
            payment_method := optOr md.payment_method payment_attempt.payment_method
            browser_info := browser_info
            payment_method_type :=
              optOr md.payment_method_type payment_attempt.payment_method_type
            payment_experience :=
              optOr request.payment_experience payment_attempt.payment_experience
            capture_method := optOr request.capture_method payment_attempt.capture_method }
      match payment_attempt.currency with
      | none => .error (.missingRequiredField "currency")
      | some currency =>
        let amount := payment_attempt.amount
        match env.validate_customer_id_mandatory_cases request.shipping.isSome
            request.billing.isSome request.setup_future_usage.isSome
            (optOr payment_intent.customer_id request.customer_id) with
        | .error e => .error e
        | .ok _ =>
          let payment_intent :=
            { payment_intent with
                shipping_address_id := shipping_address.map (fun a => a.address_id)
                billing_address_id := billing_address.map (fun a => a.address_id)
                return_url := optOr request.return_url payment_intent.return_url
                allowed_payment_method_types :=
                  optOr request.allowed_payment_method_types
                    payment_intent.allowed_payment_method_types
                connector_metadata :=
                  optOr request.connector_metadata payment_intent.connector_metadata
                feature_metadata :=
                  optOr request.feature_metadata payment_intent.feature_metadata
                metadata := optOr request.metadata payment_intent.metadata }
          let payment_attempt :=
            { payment_attempt with
                business_sub_label :=
                  optOr request.business_sub_label payment_attempt.business_sub_label }
          let setup_mandate := md.setup_mandate.map (fun sm =>
            { sm with mandate_type := optOr payment_attempt.mandate_details sm.mandate_type })
          .ok (payment_intent, payment_attempt, token, currency, amount, setup_mandate)

/-- Embeds the tail of PaymentConfirm::get_trackers shared by both attempt
branches (payment_confirm.rs lines 306-451): the request merge followed by the
construction of the working record. -/
def confirm_finish (env : ConfirmEnv) (store : Store) (mandate_type : Option String)
    (request : PaymentsRequest) (md : MandateDetails)
    (payment_intent : PaymentIntent) (payment_attempt : PaymentAttempt)
    (shipping_address billing_address : Option Address)
    (connector_response : ConnectorResponse) :
    Store × Except ApiError PaymentData :=
  match merge_request_fields env mandate_type request md payment_intent payment_attempt
      shipping_address billing_address with
  | .error e => (store, .error e)
  | .ok (intent2, attempt2, token, currency, amount, setup_mandate) =>
    (store, .ok
      { payment_intent := intent2
        payment_attempt := attempt2
        currency := currency
        amount := amount
        connector_response := connector_response
        email := request.email
        setup_mandate := setup_mandate
        token := token
        shipping_address := shipping_address
        billing_address := billing_address
        confirm := request.confirm
        payment_method_data := request.payment_method_data
        card_cvc := request.card_cvc
        creds_identifier :=
          request.merchant_connector_details.map (fun mcd => mcd.creds_identifier)
        frm_message := none })

/-- The stage-2 store effects of get_trackers (payment_confirm.rs lines
129-212): the shipping and billing address resolutions followed by the
conditional config upsert, applied in spawn order. -/
def confirm_stage2_store (store : Store) (request : PaymentsRequest)
    (payment_intent0 : PaymentIntent) (merchant_id : String) : Store :=
  let customer_id_for_address := optOr payment_intent0.customer_id request.customer_id
  let ship_step := create_or_find_address_for_payment_by_request store
    request.shipping payment_intent0.shipping_address_id merchant_id
    customer_id_for_address payment_intent0.payment_id "ship"
  let bill_step := create_or_find_address_for_payment_by_request ship_step.1
    request.billing payment_intent0.billing_address_id merchant_id
    customer_id_for_address payment_intent0.payment_id "bill"
  match request.merchant_connector_details with
  | some mcd => insert_merchant_connector_creds_to_config bill_step.1 merchant_id mcd
  | none => bill_step.1

/-- The resolved shipping and billing addresses of stage 2 (the values of the
two address tasks of get_trackers). -/
def confirm_stage2_addresses (store : Store) (request : PaymentsRequest)
    (payment_intent0 : PaymentIntent) (merchant_id : String) :
    Option Address × Option Address :=
  let customer_id_for_address := optOr payment_intent0.customer_id request.customer_id
  let ship_step := create_or_find_address_for_payment_by_request store
    request.shipping payment_intent0.shipping_address_id merchant_id
    customer_id_for_address payment_intent0.payment_id "ship"
  let bill_step := create_or_find_address_for_payment_by_request ship_step.1
    request.billing payment_intent0.billing_address_id merchant_id
    customer_id_for_address payment_intent0.payment_id "bill"
  (ship_step.2, bill_step.2)

/-- Embeds PaymentConfirm::get_trackers (payment_confirm.rs lines 38-452).
Stage 1 joins the intent fetch with the mandate/token resolution and examines
the inner results in program order; the access, status, fulfillment-time and
client-secret validations follow.  Stage 2 spawns the attempt fetch, both
address resolutions and the conditional config upsert (whose store effects all
apply), branches on the intent status for the attempt-versioning policy, and
finishes with the request merge.  The config-upsert task's inner result is
bound to a wildcard in the source, so no error can arise from it here. -/
def get_trackers (env : ConfirmEnv) (store : Store) (payment_id merchant_id : String)
    (mandate_type : Option String) (request : PaymentsRequest) :
    Store × Except ApiError PaymentData :=
  match find_payment_intent store payment_id merchant_id with
  | none => (store, .error .paymentNotFound)
  | some payment_intent0 =>
    match env.mandate_details with
    | .error e => (store, .error e)
    | .ok md =>
      match env.customer_access with
      | .error e => (store, .error e)
      | .ok _ =>
        match validate_payment_status_against_not_allowed_statuses payment_intent0.status
            confirm_not_allowed_statuses with
        | .error e => (store, .error e)
        | .ok _ =>
          match env.fulfillment_time with
          | .error e => (store, .error e)
          | .ok _ft =>
            match env.client_secret_auth with
            | .error e => (store, .error e)
            | .ok _ =>
              let attempt_fetch : Except ApiError PaymentAttempt :=
                match find_payment_attempt store payment_intent0.payment_id merchant_id
                    payment_intent0.active_attempt with
                | some pa => .ok pa
                | none => .error .paymentNotFound
              let shipping_address :=
                (confirm_stage2_addresses store request payment_intent0 merchant_id).1
              let billing_address :=
                (confirm_stage2_addresses store request payment_intent0 merchant_id).2
              let store3 := confirm_stage2_store store request payment_intent0 merchant_id
              match payment_intent0.status with
              | .requiresCustomerAction | .requiresMerchantAction
              | .requiresPaymentMethod | .requiresConfirmation =>
                match attempt_fetch with
                | .error e => (store3, .error e)
                | .ok payment_attempt0 =>
                  match find_connector_response store3 payment_intent0.payment_id merchant_id
                      payment_intent0.active_attempt with
                  | none => (store3, .error .paymentNotFound)
                  | some connector_response =>
                    confirm_finish env store3 mandate_type request md payment_intent0
                      payment_attempt0 shipping_address billing_address connector_response
              | _ =>
                match attempt_fetch with
                | .error e => (store3, .error e)
                | .ok payment_attempt0 =>
                  match get_attempt_type request with
                  | .sameOld =>
                    match find_connector_response store3 payment_intent0.payment_id merchant_id
                        payment_intent0.active_attempt with
                    | none => (store3, .error .paymentNotFound)
                    | some connector_response =>
                      confirm_finish env store3 mandate_type request md payment_intent0
                        payment_attempt0 shipping_address billing_address connector_response
                  | .new =>
                    let new_attempt := make_new_attempt payment_attempt0
                    let payment_intent1 :=
                      { payment_intent0 with active_attempt := new_attempt.attempt_id }
                    let new_cr : ConnectorResponse :=
                      { payment_id := payment_intent1.payment_id
                        merchant_id := merchant_id
                        attempt_id := new_attempt.attempt_id }
                    let store4 :=
                      { store3 with
                          attempts := new_attempt :: store3.attempts
                          intents := store3.intents.map (fun pi =>
                            if intent_match payment_id merchant_id pi then payment_intent1
                            else pi)
                          connector_responses := new_cr :: store3.connector_responses }
                    confirm_finish env store4 mandate_type request md payment_intent1
                      new_attempt shipping_address billing_address new_cr

/-- Modelled from the spec: helpers::make_pm_data is not under src; per the
spec, the enrichment stage resolves payment-method data from the request or
from a stored token, and resolves nothing when neither is available. -/
def helpers_make_pm_data (store : Store) (payment_data : PaymentData) : Option String :=
  optOr payment_data.payment_method_data
    (payment_data.token.bind (fun t => lookup_token store t))

/-- Embeds PaymentConfirm::make_pm_data (payment_confirm.rs lines 484-502): the
helper's resolution result is demanded to be present, an absent result fails
with PaymentMethodNotFound. -/
def make_pm_data (store : Store) (payment_data : PaymentData) :
    Except ApiError (Option String) :=
  let payment_method_data := helpers_make_pm_data store payment_data
  if payment_method_data.isNone then .error .paymentMethodNotFound
  else .ok payment_method_data

/-- Connector choice produced by connector resolution (api::ConnectorChoice). -/
inductive ConnectorChoice
  | straightThrough (routing : String)
  | decide
deriving DecidableEq

/-- Modelled from the spec: helpers::get_connector_default is not under src;
per the spec an explicit request routing override is used when present, and
otherwise the choice is deferred to the merchant's default routing algorithm.
The function receives only the request's routing value, exactly as at its call
site in payment_confirm.rs line 525. -/
def get_connector_default (routing : Option String) : ConnectorChoice :=
  match routing with
  | some r => .straightThrough r
  | none => .decide

/-- Embeds PaymentConfirm::get_connector (payment_confirm.rs lines 515-526):
the payment intent parameter is received but not used (it is bound as
_payment_intent in the source); the choice is delegated to
get_connector_default on the request's routing field. -/
def get_connector (request : PaymentsRequest) (_payment_intent : PaymentIntent) :
    ConnectorChoice :=
  get_connector_default request.routing

/-- The enrichment-then-persist tail of the confirm pipeline: make_pm_data runs
before update_trackers, and its failure prevents the persist stage from
running. -/
def confirm_domain_then_persist (get_additional_payment_data : String → String)
    (store : Store) (payment_data : PaymentData)
    (customer : Option Customer) (updated_customer : Option String)
    (frm_suggestion : Option FrmSuggestion)
    (payment_confirm_source : Option String) :
    Store × Except ApiError PaymentData :=
  match make_pm_data store payment_data with
  | .error e => (store, .error e)
  | .ok _pmd =>
    update_trackers get_additional_payment_data store payment_data customer updated_customer
      frm_suggestion payment_confirm_source

/-- The confirm pipeline in program order: get_trackers, then enrichment, then
persist; a failing stage short-circuits every later stage. -/
def confirm_operation (env : ConfirmEnv) (get_additional_payment_data : String → String)
    (store : Store) (payment_id merchant_id : String)
    (mandate_type : Option String) (request : PaymentsRequest)
    (customer : Option Customer) (updated_customer : Option String)
    (frm_suggestion : Option FrmSuggestion)
    (payment_confirm_source : Option String) :
    Store × Except ApiError PaymentData :=
  match get_trackers env store payment_id merchant_id mandate_type request with
  | (s, .error e) => (s, .error e)
  | (s, .ok payment_data) =>
    confirm_domain_then_persist get_additional_payment_data s payment_data customer
      updated_customer frm_suggestion payment_confirm_source

/-- The requesting user's identity decoded from the auth token
(auth::UserFromToken). -/
structure UserFromToken where
  user_id : String
  merchant_id : String
deriving DecidableEq

/-- User row. -/
structure UserRecord where
  user_id : String
  email : String
deriving DecidableEq

/-- User-role row: one role of one user at one merchant. -/
structure UserRoleRecord where
  user_id : String
  merchant_id : String
  role_id : String
deriving DecidableEq

/-- Write operations issued against the user store, recorded in issue order. -/
inductive UserStoreOp
  | updateRole (user_id merchant_id role_id : String)
  | deleteUser (user_id : String)
  | deleteUserRole (user_id merchant_id : String)
deriving DecidableEq

/-- The user/role backing store, with a log of every issued write. -/
structure UserStore where
  users : List UserRecord
  user_roles : List UserRoleRecord
  log : List UserStoreOp
deriving DecidableEq

/-- User-facing errors of core::errors::UserErrors used by the role module. -/
inductive UserError
  | invalidRoleId
  | invalidRoleOperation
  | invalidDeleteOperation
  | internalServerError
deriving DecidableEq

/-- Request body of update_user_role. -/
structure UpdateUserRoleRequest where
  user_id : String
  role_id : String
deriving DecidableEq

/-- Embeds find_user_by_email. -/
def find_user_by_email (store : UserStore) (email : String) : Option UserRecord :=
  store.users.find? (fun u => decide (u.email = email))

/-- Embeds list_user_roles_by_user_id. -/
def list_user_roles_by_user_id (store : UserStore) (user_id : String) : List UserRoleRecord :=
  store.user_roles.filter (fun r => decide (r.user_id = user_id))

/-- Embeds update_user_role_by_user_id_merchant_id with an UpdateRole patch:
the first role row of the user at the merchant gets the new role id; a missing
row is a storage not-found. -/
def db_update_user_role (store : UserStore) (user_id merchant_id role_id : String) :
    UserStore × Except StorageError Unit :=
  match update_first (fun r => decide (r.user_id = user_id ∧ r.merchant_id = merchant_id))
      (fun r => { r with role_id := role_id }) store.user_roles with
  | none => (store, .error .notFound)
  | some (_, l) =>
    ({ store with
        user_roles := l
        log := store.log ++ [.updateRole user_id merchant_id role_id] }, .ok ())

/-- Embeds delete_user_by_user_id. -/
def db_delete_user (store : UserStore) (user_id : String) : UserStore :=
  { store with
      users := store.users.filter (fun u => decide (u.user_id ≠ user_id))
      log := store.log ++ [.deleteUser user_id] }

/-- Embeds delete_user_role_by_user_id_merchant_id. -/
def db_delete_user_role (store : UserStore) (user_id merchant_id : String) : UserStore :=
  { store with
      user_roles := store.user_roles.filter
        (fun r => decide (¬ (r.user_id = user_id ∧ r.merchant_id = merchant_id)))
      log := store.log ++ [.deleteUserRole user_id merchant_id] }

/-- Embeds core::user_role::update_user_role (user_role.rs lines 68-103).
utils::user_role::validate_role_id is not under src and is abstracted as a
boolean validity predicate whose failure is the InvalidRoleId error; it runs
before the self-targeting check, exactly as in the source.  A not-found from
the role update maps to InvalidRoleOperation, any other store failure to
InternalServerError. -/
def update_user_role (validate_role_id : String → Bool) (store : UserStore)
    (user_from_token : UserFromToken) (req : UpdateUserRoleRequest) :
    UserStore × Except UserError Unit :=
  if ¬ validate_role_id req.role_id then
    (store, .error .invalidRoleId)
  else if user_from_token.user_id = req.user_id then
    (store, .error .invalidRoleOperation)
  else
    let step := db_update_user_role store req.user_id user_from_token.merchant_id req.role_id
    match step.2 with
    | .error .notFound => (step.1, .error .invalidRoleOperation)
    | .error .databaseError => (step.1, .error .internalServerError)
    | .ok _ => (step.1, .ok ())

/-- Embeds core::user_role::delete_user_role (user_role.rs lines 105-185).
utils::user::validate_deletion_permission_for_role_id is not under src and is
abstracted as a boolean permission predicate whose failure is surfaced as
InvalidDeleteOperation.  The user is resolved by email (a missing user maps to
InvalidRoleOperation), the self-targeting check follows, then the role listing
and permission check; a user holding more than one role loses only the
(user, merchant) role row, while a user holding exactly one role is deleted as
a user first and the role row is deleted afterwards. -/
def delete_user_role (validate_deletion_permission : String → Bool) (store : UserStore)
    (user_from_token : UserFromToken) (request_email : String) :
    UserStore × Except UserError Unit :=
  match find_user_by_email store request_email with
  | none => (store, .error .invalidRoleOperation)
  | some user_from_db =>
    if user_from_db.user_id = user_from_token.user_id then
      (store, .error .invalidDeleteOperation)
    else
      let user_roles := list_user_roles_by_user_id store user_from_db.user_id
      match user_roles.find? (fun role => decide (role.merchant_id = user_from_token.merchant_id)) with
      | none => (store, .error .invalidDeleteOperation)
      | some user_role =>
        if ¬ validate_deletion_permission user_role.role_id then
          (store, .error .invalidDeleteOperation)
        else if user_roles.length > 1 then
          (db_delete_user_role store user_from_db.user_id user_from_token.merchant_id, .ok ())
        else
          let store1 := db_delete_user store user_from_db.user_id
          (db_delete_user_role store1 user_from_db.user_id user_from_token.merchant_id, .ok ())

theorem update_first_image {α : Type} {p : α → Bool} {f : α → α} {l : List α}
    {x : α} {l2 : List α} (h : update_first p f l = some (x, l2)) :
    ∃ a, x = f a := by
  induction l generalizing x l2 with
  | nil => simp [update_first] at h
  | cons a rest ih =>
    by_cases hpa : p a
    · simp only [update_first, hpa, if_true] at h
      exact ⟨a, ((Prod.mk.injEq ..).mp (Option.some.injEq .. ▸ h)).1.symm⟩
    · simp only [update_first, hpa, Bool.false_eq_true, if_false] at h
      cases hrec : update_first p f rest with
      | none => rw [hrec] at h; exact Option.noConfusion h
      | some xl =>
        rw [hrec] at h
        obtain ⟨x0, l0⟩ := xl
        obtain ⟨hx, _⟩ := (Prod.mk.injEq ..).mp (Option.some.injEq .. ▸ h)
        subst hx
        exact ih hrec

theorem db_update_payment_attempt_none (store : Store) (a : PaymentAttempt)
    (u : PaymentAttemptUpdate)
    (h : find_payment_attempt store a.payment_id a.merchant_id a.attempt_id = none) :
    db_update_payment_attempt store a u = (store, .error .notFound) := by
  unfold find_payment_attempt at h
  unfold db_update_payment_attempt
  rw [(update_first_none_iff _ _ _).mpr h]

theorem db_update_payment_intent_none (store : Store) (i : PaymentIntent)
    (u : PaymentIntentUpdate)
    (h : find_payment_intent store i.payment_id i.merchant_id = none) :
    db_update_payment_intent store i u = (store, .error .notFound) := by
  unfold find_payment_intent at h
  unfold db_update_payment_intent
  rw [(update_first_none_iff _ _ _).mpr h]

theorem attempt_match_apply (p m aid : String) (u : PaymentAttemptUpdate)
    (x : PaymentAttempt) (hx : attempt_match p m aid x = true) :
    attempt_match p m aid (apply_attempt_update x u) = true := hx

theorem intent_match_apply (p m : String) (u : PaymentIntentUpdate)
    (x : PaymentIntent) (hx : intent_match p m x = true) :
    intent_match p m (apply_intent_update x u) = true := hx

theorem db_update_payment_attempt_some (store : Store) (a : PaymentAttempt)
    (u : PaymentAttemptUpdate) (row : PaymentAttempt)
    (h : find_payment_attempt store a.payment_id a.merchant_id a.attempt_id = some row) :
    ∃ row2 l,
      db_update_payment_attempt store a u = ({ store with attempts := l }, .ok row2) ∧
      l.find? (attempt_match a.payment_id a.merchant_id a.attempt_id) = some row2 ∧
      row2.status = u.status := by
  unfold find_payment_attempt at h
  obtain ⟨x, l2, hu⟩ := update_first_of_find (fun r => apply_attempt_update r u) h
  obtain ⟨hfind, _⟩ := update_first_find (attempt_match_apply a.payment_id a.merchant_id a.attempt_id u) hu
  obtain ⟨a0, hx⟩ := update_first_image hu
  refine ⟨x, l2, ?_, hfind, ?_⟩
  · unfold db_update_payment_attempt
    rw [hu]
  · rw [hx]
    rfl

theorem db_update_payment_intent_some (store : Store) (i : PaymentIntent)
    (u : PaymentIntentUpdate) (row : PaymentIntent)
    (h : find_payment_intent store i.payment_id i.merchant_id = some row) :
    ∃ row2 l,
      db_update_payment_intent store i u = ({ store with intents := l }, .ok row2) ∧
      l.find? (intent_match i.payment_id i.merchant_id) = some row2 ∧
      row2.status = u.status := by
  unfold find_payment_intent at h
  obtain ⟨x, l2, hu⟩ := update_first_of_find (fun r => apply_intent_update r u) h
  obtain ⟨hfind, _⟩ := update_first_find (intent_match_apply i.payment_id i.merchant_id u) hu
  obtain ⟨a0, hx⟩ := update_first_image hu
  refine ⟨x, l2, ?_, hfind, ?_⟩
  · unfold db_update_payment_intent
    rw [hu]
  · rw [hx]
    rfl

theorem db_update_payment_attempt_intents (store : Store) (a : PaymentAttempt)
    (u : PaymentAttemptUpdate) :
    (db_update_payment_attempt store a u).1.intents = store.intents := by
  unfold db_update_payment_attempt
  cases h : update_first (attempt_match a.payment_id a.merchant_id a.attempt_id)
      (fun row => apply_attempt_update row u) store.attempts with
  | none => rfl
  | some xl => obtain ⟨x, l⟩ := xl; rfl

theorem db_update_customer_attempts (s : Store) (cid mid patch : String) :
    (db_update_customer s cid mid patch).1.attempts = s.attempts := by
  unfold db_update_customer
  cases h : update_first (customer_match cid mid) (fun row => { row with data := patch })
      s.customers with
  | none => rfl
  | some xl => obtain ⟨x, l⟩ := xl; rfl

theorem db_update_customer_intents (s : Store) (cid mid patch : String) :
    (db_update_customer s cid mid patch).1.intents = s.intents := by
  unfold db_update_customer
  cases h : update_first (customer_match cid mid) (fun row => { row with data := patch })
      s.customers with
  | none => rfl
  | some xl => obtain ⟨x, l⟩ := xl; rfl

theorem update_trackers_attempt_missing (gap : String → String) (store : Store)
    (pd : PaymentData) (customer : Option Customer) (upd : Option String)
    (frm : Option FrmSuggestion) (src : Option String)
    (ha : find_payment_attempt store pd.payment_attempt.payment_id
      pd.payment_attempt.merchant_id pd.payment_attempt.attempt_id = none) :
    (update_trackers gap store pd customer upd frm src).2 = .error .paymentNotFound := by
  have hA := db_update_payment_attempt_none store pd.payment_attempt
    (confirm_attempt_update pd (frm_status_transition frm pd.frm_message).2.1
      (frm_status_transition frm pd.frm_message).2.2.1
      (frm_status_transition frm pd.frm_message).2.2.2
      (pd.payment_method_data.map gap)) ha
  cases hu : update_first (intent_match pd.payment_intent.payment_id
      pd.payment_intent.merchant_id)
      (fun r => apply_intent_update r
        (confirm_intent_update pd (frm_status_transition frm pd.frm_message).1 customer src))
      store.intents with
  | none =>
    simp [update_trackers, hA, db_update_payment_intent, hu, to_not_found_response]
  | some xl =>
    obtain ⟨x, l⟩ := xl
    simp [update_trackers, hA, db_update_payment_intent, hu, to_not_found_response]

theorem update_trackers_intent_missing (gap : String → String) (store : Store)
    (pd : PaymentData) (customer : Option Customer) (upd : Option String)
    (frm : Option FrmSuggestion) (src : Option String)
    (hi : find_payment_intent store pd.payment_intent.payment_id
      pd.payment_intent.merchant_id = none) :
    (update_trackers gap store pd customer upd frm src).2 = .error .paymentNotFound := by
  have h2 : find_payment_intent
      (db_update_payment_attempt store pd.payment_attempt
        (confirm_attempt_update pd (frm_status_transition frm pd.frm_message).2.1
          (frm_status_transition frm pd.frm_message).2.2.1
          (frm_status_transition frm pd.frm_message).2.2.2
          (pd.payment_method_data.map gap))).1
      pd.payment_intent.payment_id pd.payment_intent.merchant_id = none := by
    unfold find_payment_intent at hi ⊢
    rw [db_update_payment_attempt_intents]
    exact hi
  have hI := db_update_payment_intent_none _ pd.payment_intent
    (confirm_intent_update pd (frm_status_transition frm pd.frm_message).1 customer src) h2
  simp [update_trackers, hI, to_not_found_response]

theorem update_trackers_ok_char (gap : String → String) (store : Store)
    (pd : PaymentData) (customer : Option Customer) (upd : Option String)
    (frm : Option FrmSuggestion) (src : Option String)
    (rowI : PaymentIntent) (rowA : PaymentAttempt)
    (hi : find_payment_intent store pd.payment_intent.payment_id
      pd.payment_intent.merchant_id = some rowI)
    (ha : find_payment_attempt store pd.payment_attempt.payment_id
      pd.payment_attempt.merchant_id pd.payment_attempt.attempt_id = some rowA) :
    ∃ store2 pd2,
      update_trackers gap store pd customer upd frm src = (store2, .ok pd2) ∧
      pd2.payment_intent.status = (frm_status_transition frm pd.frm_message).1 ∧
      pd2.payment_attempt.status = (frm_status_transition frm pd.frm_message).2.1 ∧
      find_payment_attempt store2 pd.payment_attempt.payment_id
        pd.payment_attempt.merchant_id pd.payment_attempt.attempt_id
        = some pd2.payment_attempt ∧
      find_payment_intent store2 pd.payment_intent.payment_id
        pd.payment_intent.merchant_id = some pd2.payment_intent := by
  obtain ⟨rowA2, lA, hA, hAfind, hAst⟩ := db_update_payment_attempt_some store
    pd.payment_attempt
    (confirm_attempt_update pd (frm_status_transition frm pd.frm_message).2.1
      (frm_status_transition frm pd.frm_message).2.2.1
      (frm_status_transition frm pd.frm_message).2.2.2
      (pd.payment_method_data.map gap)) rowA ha
  have hi1 : find_payment_intent { store with attempts := lA }
      pd.payment_intent.payment_id pd.payment_intent.merchant_id = some rowI := hi
  obtain ⟨rowI2, lI, hI, hIfind, hIst⟩ := db_update_payment_intent_some
    { store with attempts := lA } pd.payment_intent
    (confirm_intent_update pd (frm_status_transition frm pd.frm_message).1 customer src)
    rowI hi1
  cases upd with
  | none =>
    cases customer with
    | none =>
      refine ⟨{ store with attempts := lA, intents := lI },
        { pd with payment_intent := rowI2, payment_attempt := rowA2 },
        by simp [update_trackers, hA, hI, to_not_found_response], hIst, hAst, hAfind, hIfind⟩
    | some c =>
      refine ⟨{ store with attempts := lA, intents := lI },
        { pd with payment_intent := rowI2, payment_attempt := rowA2 },
        by simp [update_trackers, hA, hI, to_not_found_response], hIst, hAst, hAfind, hIfind⟩
  | some patch =>
    cases customer with
    | none =>
      refine ⟨{ store with attempts := lA, intents := lI },
        { pd with payment_intent := rowI2, payment_attempt := rowA2 },
        by simp [update_trackers, hA, hI, to_not_found_response], hIst, hAst, hAfind, hIfind⟩
    | some c =>
      refine ⟨(db_update_customer { store with attempts := lA, intents := lI }
          c.customer_id c.merchant_id patch).1,
        { pd with payment_intent := rowI2, payment_attempt := rowA2 },
        by simp [update_trackers, hA, hI, to_not_found_response], hIst, hAst, ?_, ?_⟩
      · unfold find_payment_attempt
        rw [db_update_customer_attempts]
        exact hAfind
      · unfold find_payment_intent
        rw [db_update_customer_intents]
        exact hIfind

theorem find_payment_attempt_keys (store : Store) (pid mid aid : String)
    (pa : PaymentAttempt) (h : find_payment_attempt store pid mid aid = some pa) :
    pa.payment_id = pid ∧ pa.merchant_id = mid ∧ pa.attempt_id = aid := by
  unfold find_payment_attempt at h
  have h2 := List.find?_some h
  unfold attempt_match at h2
  exact of_decide_eq_true h2

theorem merge_request_fields_eq_of_ok (env : ConfirmEnv) (mt : Option String)
    (req : PaymentsRequest) (md : MandateDetails) (intent : PaymentIntent)
    (attempt : PaymentAttempt) (ship bill : Option Address)
    (res : PaymentIntent × PaymentAttempt × Option String × String × Nat × Option SetupMandate)
    (h : merge_request_fields env mt req md intent attempt ship bill = .ok res) :
    res.1.order_details = optOr req.order_details intent.order_details ∧
    res.1.setup_future_usage = optOr req.setup_future_usage intent.setup_future_usage ∧
    res.1.return_url = optOr req.return_url intent.return_url ∧
    res.1.allowed_payment_method_types
      = optOr req.allowed_payment_method_types intent.allowed_payment_method_types ∧
    res.1.connector_metadata = optOr req.connector_metadata intent.connector_metadata ∧
    res.1.feature_metadata = optOr req.feature_metadata intent.feature_metadata ∧
    res.1.metadata = optOr req.metadata intent.metadata ∧
    res.2.1.browser_info = optOr req.browser_info attempt.browser_info ∧
    res.2.1.payment_experience = optOr req.payment_experience attempt.payment_experience ∧
    res.2.1.capture_method = optOr req.capture_method attempt.capture_method ∧
    res.2.1.business_sub_label = optOr req.business_sub_label attempt.business_sub_label ∧
    res.2.1.attempt_id = attempt.attempt_id := by
  simp only [merge_request_fields] at h
  split at h
  · simp at h
  · split at h
    · simp at h
    · split at h
      · simp at h
      · split at h
        · simp at h
        · injection h with h2
          subst h2
          exact ⟨rfl, rfl, rfl, rfl, rfl, rfl, rfl, rfl, rfl, rfl, rfl, rfl⟩

theorem create_or_find_address_connector_responses (store : Store)
    (ra aid : Option String) (mid : String) (cid : Option String) (pid tag : String) :
    ((create_or_find_address_for_payment_by_request store ra aid mid cid pid tag).1).connector_responses
      = store.connector_responses := by
  unfold create_or_find_address_for_payment_by_request
  repeat' split
  all_goals rfl

theorem create_or_find_address_attempts (store : Store)
    (ra aid : Option String) (mid : String) (cid : Option String) (pid tag : String) :
    ((create_or_find_address_for_payment_by_request store ra aid mid cid pid tag).1).attempts
      = store.attempts := by
  unfold create_or_find_address_for_payment_by_request
  repeat' split
  all_goals rfl

theorem insert_mcd_connector_responses (store : Store) (mid : String)
    (mcd : MerchantConnectorDetails) :
    (insert_merchant_connector_creds_to_config store mid mcd).connector_responses
      = store.connector_responses := by
  simp only [insert_merchant_connector_creds_to_config]
  repeat' split
  all_goals rfl

/-- Concrete intent fixture used by the witnesses. -/
def intentW : PaymentIntent :=
  { payment_id := "p1", merchant_id := "m1", status := .requiresConfirmation, amount := 100
    currency := some "USD", active_attempt := "a1", customer_id := none
    shipping_address_id := none, billing_address_id := none, return_url := none
    setup_future_usage := none, order_details := none, metadata := none
    connector_metadata := none, feature_metadata := none
    allowed_payment_method_types := none, business_country := none, business_label := none
    description := none, statement_descriptor_name := none
    statement_descriptor_suffix := none, payment_confirm_source := none
    client_secret := none, payment_link_id := none }

/-- Concrete attempt fixture used by the witnesses. -/
def attemptW : PaymentAttempt :=
  { attempt_id := "a1", payment_id := "p1", merchant_id := "m1", status := .started
    amount := 100, currency := some "USD", payment_method := none
    payment_method_type := none, payment_experience := none, capture_method := none
    browser_info := none, business_sub_label := none, payment_token := none
    connector := none, straight_through_algorithm := none, authentication_type := none
    mandate_details := none, payment_method_data := none, error_code := none
    error_message := none, amount_capturable := none }

/-- Concrete connector-response fixture used by the witnesses. -/
def crW : ConnectorResponse := { payment_id := "p1", merchant_id := "m1", attempt_id := "a1" }

/-- Concrete working-record fixture used by the witnesses. -/
def pdW : PaymentData :=
  { payment_intent := intentW, payment_attempt := attemptW, currency := "USD", amount := 100
    connector_response := crW, email := none, setup_mandate := none, token := none
    shipping_address := none, billing_address := none, confirm := some true
    payment_method_data := some "card", card_cvc := none, creds_identifier := none
    frm_message := none }

/-- Concrete store fixture used by the witnesses. -/
def storeW : Store :=
  { intents := [intentW], attempts := [attemptW], addresses := [], configs := []
    connector_responses := [crW], customers := [], tokens := [] }

/-- Concrete mandate-resolution fixture used by the witnesses. -/
def mdW : MandateDetails :=
  { token := none, payment_method := none, payment_method_type := none
    setup_mandate := none, recurring_mandate_payment_data := none
    mandate_connector := none }

/-- Concrete environment fixture in which every abstracted validator passes. -/
def envW : ConfirmEnv :=
  { mandate_details := .ok mdW, customer_access := .ok (), fulfillment_time := .ok none
    client_secret_auth := .ok ()
    validate_card_data := fun _ => .ok ()
    validate_pm_or_token_given := fun _ _ _ _ _ => .ok ()
    validate_customer_id_mandatory_cases := fun _ _ _ _ => .ok () }

/-- Concrete request fixture with every optional field absent. -/
def reqW : PaymentsRequest :=
  { merchant_id := none, customer_id := none, shipping := none, billing := none
    merchant_connector_details := none, client_secret := none, routing := none
    payment_method := none, payment_method_type := none, payment_method_data := none
    setup_future_usage := none, return_url := none, metadata := none, order_details := none
    connector_metadata := none, feature_metadata := none
    allowed_payment_method_types := none, browser_info := none, payment_experience := none
    capture_method := none, business_sub_label := none, confirm := some true, email := none
    card_cvc := none, manual_retry := false }

/-- Concrete customer fixture used by the persist counterexamples. -/
def custW : Customer := { customer_id := "c1", merchant_id := "m1", data := "d" }

/-- C1: in the persist stage the committed intent/attempt status pair is a
function of the fraud-prevention suggestion alone: FrmCancelTransaction gives
(Failed, Failure), FrmManualReview gives (RequiresMerchantAction, Unresolved),
any other suggestion - including none - gives (Processing, Pending); no other
pair exists, and every successful update_trackers run commits exactly this
pair on the returned working record and on the stored intent and attempt
rows. -/
theorem confirm_frm_status_pairs :
    (∀ m, ((frm_status_transition (some .frmCancelTransaction) m).1,
        (frm_status_transition (some .frmCancelTransaction) m).2.1)
      = (IntentStatus.failed, AttemptStatus.failure)) ∧
    (∀ m, ((frm_status_transition (some .frmManualReview) m).1,
        (frm_status_transition (some .frmManualReview) m).2.1)
      = (IntentStatus.requiresMerchantAction, AttemptStatus.unresolved)) ∧
    (∀ s m, s ≠ some FrmSuggestion.frmCancelTransaction →
      s ≠ some FrmSuggestion.frmManualReview →
      ((frm_status_transition s m).1, (frm_status_transition s m).2.1)
        = (IntentStatus.processing, AttemptStatus.pending)) ∧
    (∀ s m, ((frm_status_transition s m).1, (frm_status_transition s m).2.1)
        = (IntentStatus.failed, AttemptStatus.failure) ∨
      ((frm_status_transition s m).1, (frm_status_transition s m).2.1)
        = (IntentStatus.requiresMerchantAction, AttemptStatus.unresolved) ∨
      ((frm_status_transition s m).1, (frm_status_transition s m).2.1)
        = (IntentStatus.processing, AttemptStatus.pending)) ∧
    (∀ gap store pd customer upd frm src rowI rowA,
      find_payment_intent store pd.payment_intent.payment_id
        pd.payment_intent.merchant_id = some rowI →
      find_payment_attempt store pd.payment_attempt.payment_id
        pd.payment_attempt.merchant_id pd.payment_attempt.attempt_id = some rowA →
      ∃ store2 pd2,
        update_trackers gap store pd customer upd frm src = (store2, .ok pd2) ∧
        pd2.payment_intent.status = (frm_status_transition frm pd.frm_message).1 ∧
        pd2.payment_attempt.status = (frm_status_transition frm pd.frm_message).2.1 ∧
        find_payment_attempt store2 pd.payment_attempt.payment_id
          pd.payment_attempt.merchant_id pd.payment_attempt.attempt_id
          = some pd2.payment_attempt ∧
        find_payment_intent store2 pd.payment_intent.payment_id
          pd.payment_intent.merchant_id = some pd2.payment_intent) := by
  refine ⟨?_, ?_, ?_, ?_, ?_⟩
  · intro m; cases m <;> rfl
  · intro m; cases m <;> rfl
  · intro s m h1 h2
    cases s with
    | none => rfl
    | some v =>
      cases v with
      | frmCancelTransaction => exact absurd rfl h1
      | frmManualReview => exact absurd rfl h2
      | frmAutoRefund => rfl
  · intro s m
    cases s with
    | none => right; right; rfl
    | some v =>
      cases v with
      | frmCancelTransaction => left; cases m <;> rfl
      | frmManualReview => right; left; rfl
      | frmAutoRefund => right; right; rfl
  · intro gap store pd customer upd frm src rowI rowA hi ha
    exact update_trackers_ok_char gap store pd customer upd frm src rowI rowA hi ha

/-- Witness for C1 at a concrete successful run with no fraud suggestion. -/
theorem confirm_frm_status_pairs_witness :
    ((frm_status_transition none none).1, (frm_status_transition none none).2.1)
      = (IntentStatus.processing, AttemptStatus.pending) ∧
    ∃ store2 pd2,
      update_trackers id storeW pdW none none none none = (store2, .ok pd2) ∧
      pd2.payment_intent.status = (frm_status_transition none pdW.frm_message).1 ∧
      pd2.payment_attempt.status = (frm_status_transition none pdW.frm_message).2.1 ∧
      find_payment_attempt store2 pdW.payment_attempt.payment_id
        pdW.payment_attempt.merchant_id pdW.payment_attempt.attempt_id
        = some pd2.payment_attempt ∧
      find_payment_intent store2 pdW.payment_intent.payment_id
        pdW.payment_intent.merchant_id = some pd2.payment_intent := by
  have h := confirm_frm_status_pairs
  refine ⟨h.2.2.1 none none (by decide) (by decide), ?_⟩
  exact h.2.2.2.2 id storeW pdW none none none none intentW attemptW rfl rfl

/-- C2: when the fetched intent's status is one of Cancelled, Succeeded,
Processing, RequiresCapture or RequiresMerchantAction, get_trackers fails with
the NotAllowedInCurrentState error and leaves the store untouched - no intent
update, attempt update, address create, config upsert or customer write is
performed. -/
theorem confirm_status_gate_blocks (env : ConfirmEnv) (store : Store)
    (pid mid : String) (mt : Option String) (req : PaymentsRequest)
    (intent : PaymentIntent) (md : MandateDetails)
    (h1 : find_payment_intent store pid mid = some intent)
    (h2 : env.mandate_details = .ok md)
    (h3 : env.customer_access = .ok ())
    (h4 : intent.status ∈ confirm_not_allowed_statuses) :
    get_trackers env store pid mid mt req = (store, .error .notAllowedInCurrentState) := by
  simp only [get_trackers, h1, h2, h3]
  simp [validate_payment_status_against_not_allowed_statuses, h4]

/-- Witness for C2 at a concrete intent in the Succeeded status. -/
theorem confirm_status_gate_blocks_witness :
    find_payment_intent
        { storeW with intents := [{ intentW with status := .succeeded }] } "p1" "m1"
      = some { intentW with status := .succeeded } ∧
    ({ intentW with status := .succeeded }).status ∈ confirm_not_allowed_statuses ∧
    get_trackers envW { storeW with intents := [{ intentW with status := .succeeded }] }
        "p1" "m1" none reqW
      = ({ storeW with intents := [{ intentW with status := .succeeded }] },
        .error .notAllowedInCurrentState) := by
  refine ⟨rfl, by decide, ?_⟩
  exact confirm_status_gate_blocks envW _ "p1" "m1" none reqW
    { intentW with status := .succeeded } mdW rfl rfl rfl (by decide)

/-- C3 (amended): a not-found result from the attempt or intent write of the
persist stage is mapped to PaymentNotFound, but the customer write's result is
remapped to InternalServerError inside its task and then discarded at the
join, so it never surfaces: the stage succeeds whenever the intent and attempt
rows exist, regardless of the customer write's outcome. -/
theorem persist_not_found_maps_to_payment_not_found :
    (∀ (gap : String → String) store pd customer upd frm src,
      find_payment_attempt store pd.payment_attempt.payment_id
        pd.payment_attempt.merchant_id pd.payment_attempt.attempt_id = none →
      (update_trackers gap store pd customer upd frm src).2 = .error .paymentNotFound) ∧
    (∀ (gap : String → String) store pd customer upd frm src,
      find_payment_intent store pd.payment_intent.payment_id
        pd.payment_intent.merchant_id = none →
      (update_trackers gap store pd customer upd frm src).2 = .error .paymentNotFound) ∧
    (∀ (gap : String → String) store pd customer upd frm src rowI rowA,
      find_payment_intent store pd.payment_intent.payment_id
        pd.payment_intent.merchant_id = some rowI →
      find_payment_attempt store pd.payment_attempt.payment_id
        pd.payment_attempt.merchant_id pd.payment_attempt.attempt_id = some rowA →
      except_is_ok (update_trackers gap store pd customer upd frm src).2 = true) := by
  refine ⟨?_, ?_, ?_⟩
  · intro gap store pd customer upd frm src ha
    exact update_trackers_attempt_missing gap store pd customer upd frm src ha
  · intro gap store pd customer upd frm src hi
    exact update_trackers_intent_missing gap store pd customer upd frm src hi
  · intro gap store pd customer upd frm src rowI rowA hi ha
    obtain ⟨s2, p2, heq, _⟩ := update_trackers_ok_char gap store pd customer upd frm src
      rowI rowA hi ha
    simp [heq, except_is_ok]

/-- Witness for C3: a concrete persist run whose attempt row is missing fails
with PaymentNotFound, and a fully present run succeeds. -/
theorem persist_not_found_witness :
    (update_trackers id { storeW with attempts := [] } pdW none none none none).2
      = .error .paymentNotFound ∧
    except_is_ok (update_trackers id storeW pdW none none none none).2 = true := by
  have h := persist_not_found_maps_to_payment_not_found
  refine ⟨h.1 id { storeW with attempts := [] } pdW none none none none rfl, ?_⟩
  exact h.2.2 id storeW pdW none none none none intentW attemptW rfl rfl

/-- Counterexample for C3 as stated: with the customer row absent the customer
write returns a storage not-found, yet update_trackers succeeds - the stage's
result is not a PaymentNotFound error (the customer task's inner result is
discarded at the join). -/
theorem persist_customer_not_found_ignored :
    find_customer storeW "c1" "m1" = none ∧
    (db_update_customer storeW "c1" "m1" "patch").2 = .error .notFound ∧
    except_is_ok
      (update_trackers id storeW pdW (some custW) (some "patch") none none).2 = true ∧
    (update_trackers id storeW pdW (some custW) (some "patch") none none).2
      ≠ .error .paymentNotFound := by
  refine ⟨rfl, rfl, by decide, by decide⟩

/-- The connector-priority property claimed for get_connector: with no request
routing override, a connector previously chosen for the payment (stored on the
intent's active attempt) is returned by get_connector. -/
def connector_priority_claim : Prop :=
  ∀ (store : Store) (request : PaymentsRequest) (intent : PaymentIntent)
    (attempt : PaymentAttempt) (c : String),
    request.routing = none →
    find_payment_attempt store intent.payment_id intent.merchant_id intent.active_attempt
      = some attempt →
    attempt.connector = some c →
    get_connector request intent = .straightThrough c

/-- Counterexample for C6: get_connector receives neither the store nor the
attempt and ignores its intent parameter, so its result cannot depend on the
previously chosen connector - two stores whose stored attempts carry different
connectors force contradictory values on the claimed property. -/
theorem connector_priority_claim_false : ¬ connector_priority_claim := by
  intro h
  have h1 := h { storeW with attempts := [{ attemptW with connector := some "stripe" }] }
    reqW intentW { attemptW with connector := some "stripe" } "stripe" rfl rfl rfl
  have h2 := h { storeW with attempts := [{ attemptW with connector := some "adyen" }] }
    reqW intentW { attemptW with connector := some "adyen" } "adyen" rfl rfl rfl
  rw [h1] at h2
  exact absurd h2 (by decide)

/-- C6 (amended): get_connector resolves the connector choice from the request
alone - an explicit request routing override wins, and otherwise the decision
is deferred to the merchant's default routing algorithm; the previously chosen
connector stored on the intent/attempt is not consulted by this function, whose
result is independent of the intent passed to it. -/
theorem confirm_connector_resolution (request : PaymentsRequest) (i1 i2 : PaymentIntent) :
    get_connector request i1 = get_connector_default request.routing ∧
    get_connector request i1 = get_connector request i2 ∧
    (∀ r, request.routing = some r →
      get_connector request i1 = .straightThrough r) ∧
    (request.routing = none → get_connector request i1 = .decide) := by
  refine ⟨rfl, rfl, ?_, ?_⟩
  · intro r hr
    simp [get_connector, get_connector_default, hr]
  · intro hr
    simp [get_connector, get_connector_default, hr]

/-- Witness for C6 at a request with an explicit override and one without. -/
theorem confirm_connector_resolution_witness :
    get_connector { reqW with routing := some "stripe" } intentW
      = ConnectorChoice.straightThrough "stripe" ∧
    get_connector reqW intentW = ConnectorChoice.decide := by
  refine ⟨?_, ?_⟩
  · exact (confirm_connector_resolution { reqW with routing := some "stripe" }
      intentW intentW).2.2.1 "stripe" rfl
  · exact (confirm_connector_resolution reqW intentW intentW).2.2.2 rfl

/-- C8: a working record carrying neither payment-method data nor a resolved
token (the token merge with the prior attempt already happened in
get_trackers) makes make_pm_data fail with PaymentMethodNotFound, and the
enrichment-then-persist composition fails with that error before any persist
write, leaving the store untouched. -/
theorem confirm_missing_payment_method_fails (store : Store) (pd : PaymentData)
    (h1 : pd.payment_method_data = none) (h2 : pd.token = none) :
    make_pm_data store pd = .error .paymentMethodNotFound ∧
    ∀ (gap : String → String) customer upd frm src,
      confirm_domain_then_persist gap store pd customer upd frm src
        = (store, .error .paymentMethodNotFound) := by
  have hm : make_pm_data store pd = .error .paymentMethodNotFound := by
    simp [make_pm_data, helpers_make_pm_data, h1, h2, optOr]
  refine ⟨hm, ?_⟩
  intro gap customer upd frm src
  simp [confirm_domain_then_persist, hm]

/-- Witness for C8 at a concrete working record without payment method or
token. -/
theorem confirm_missing_payment_method_fails_witness :
    make_pm_data storeW { pdW with payment_method_data := none, token := none }
      = .error .paymentMethodNotFound ∧
    confirm_domain_then_persist id storeW
        { pdW with payment_method_data := none, token := none } none none none none
      = (storeW, .error .paymentMethodNotFound) := by
  have h := confirm_missing_payment_method_fails storeW
    { pdW with payment_method_data := none, token := none } rfl rfl
  exact ⟨h.1, h.2 id none none none none⟩

/-- Concrete user fixtures for the role-module witnesses. -/
def u1W : UserRecord := { user_id := "u1", email := "e1" }

/-- Second concrete user fixture. -/
def u2W : UserRecord := { user_id := "u2", email := "e2" }

/-- Concrete requesting-token fixture. -/
def utokenW : UserFromToken := { user_id := "u1", merchant_id := "m1" }

/-- Concrete user store: u1 holds two roles across merchants, u2 exactly one. -/
def ustoreW : UserStore :=
  { users := [u1W, u2W]
    user_roles :=
      [{ user_id := "u1", merchant_id := "m1", role_id := "admin" },
       { user_id := "u1", merchant_id := "m2", role_id := "org_admin" },
       { user_id := "u2", merchant_id := "m1", role_id := "admin" }]
    log := [] }

/-- C9: neither role operation allows a user to target themselves - once the
role id passes validation, update_user_role on a request naming the token's
own user id returns InvalidRoleOperation, and delete_user_role on an email
resolving to the token's own user returns InvalidDeleteOperation; in both
cases the store (roles, users and the write log) is returned unchanged, the
check preceding every role update or deletion. -/
theorem user_role_self_target_blocked :
    (∀ (validate_role_id : String → Bool) (store : UserStore) (token : UserFromToken)
      (req : UpdateUserRoleRequest),
      validate_role_id req.role_id = true →
      token.user_id = req.user_id →
      update_user_role validate_role_id store token req
        = (store, .error .invalidRoleOperation)) ∧
    (∀ (perm : String → Bool) (store : UserStore) (token : UserFromToken)
      (email : String) (u : UserRecord),
      find_user_by_email store email = some u →
      u.user_id = token.user_id →
      delete_user_role perm store token email
        = (store, .error .invalidDeleteOperation)) := by
  constructor
  · intro v store token req hv heq
    simp [update_user_role, hv, heq]
  · intro p store token email u hf heq
    simp [delete_user_role, hf, heq]

/-- Witness for C9: the token's own user as target of both operations. -/
theorem user_role_self_target_blocked_witness :
    update_user_role (fun _ => true) ustoreW utokenW
        { user_id := "u1", role_id := "admin" }
      = (ustoreW, .error .invalidRoleOperation) ∧
    delete_user_role (fun _ => true) ustoreW utokenW "e1"
      = (ustoreW, .error .invalidDeleteOperation) := by
  have h := user_role_self_target_blocked
  exact ⟨h.1 (fun _ => true) ustoreW utokenW { user_id := "u1", role_id := "admin" } rfl rfl,
    h.2 (fun _ => true) ustoreW utokenW "e1" u1W rfl rfl⟩

/-- C10: after the self-targeting and permission checks succeed,
delete_user_role deletes only the (user, merchant) role row and preserves the
user record when the user holds more than one role, and when the user holds
exactly one role it deletes the user record first and the role row second, so
removing the last role removes the user entirely. -/
theorem delete_user_role_last_role_deletes_user
    (perm : String → Bool) (store : UserStore) (token : UserFromToken) (email : String)
    (u : UserRecord) (r : UserRoleRecord)
    (hf : find_user_by_email store email = some u)
    (hne : u.user_id ≠ token.user_id)
    (hr : (list_user_roles_by_user_id store u.user_id).find?
      (fun role => decide (role.merchant_id = token.merchant_id)) = some r)
    (hperm : perm r.role_id = true) :
    ((list_user_roles_by_user_id store u.user_id).length > 1 →
      delete_user_role perm store token email
        = (db_delete_user_role store u.user_id token.merchant_id, .ok ()) ∧
      (db_delete_user_role store u.user_id token.merchant_id).users = store.users ∧
      (db_delete_user_role store u.user_id token.merchant_id).user_roles
        = store.user_roles.filter
          (fun x => decide (¬ (x.user_id = u.user_id ∧ x.merchant_id = token.merchant_id))) ∧
      (db_delete_user_role store u.user_id token.merchant_id).log
        = store.log ++ [.deleteUserRole u.user_id token.merchant_id]) ∧
    (¬ (list_user_roles_by_user_id store u.user_id).length > 1 →
      delete_user_role perm store token email
        = (db_delete_user_role (db_delete_user store u.user_id) u.user_id token.merchant_id,
          .ok ()) ∧
      (db_delete_user_role (db_delete_user store u.user_id) u.user_id token.merchant_id).users
        = store.users.filter (fun x => decide (x.user_id ≠ u.user_id)) ∧
      (db_delete_user_role (db_delete_user store u.user_id) u.user_id token.merchant_id).log
        = store.log
          ++ [.deleteUser u.user_id, .deleteUserRole u.user_id token.merchant_id]) := by
  constructor
  · intro hlen
    refine ⟨?_, rfl, rfl, rfl⟩
    simp [delete_user_role, hf, hne, hr, hperm, hlen]
  · intro hlen
    refine ⟨?_, rfl, ?_⟩
    · simp [delete_user_role, hf, hne, hr, hperm, hlen]
    · simp [db_delete_user_role, db_delete_user, List.append_assoc]

/-- Witness for C10: deleting user u2, who holds exactly one role, removes the
user record first and the role row second. -/
theorem delete_user_role_last_role_deletes_user_witness :
    delete_user_role (fun _ => true) ustoreW utokenW "e2"
      = (db_delete_user_role (db_delete_user ustoreW "u2") "u2" "m1", .ok ()) ∧
    (db_delete_user_role (db_delete_user ustoreW "u2") "u2" "m1").users
      = ustoreW.users.filter (fun x => decide (x.user_id ≠ "u2")) ∧
    (db_delete_user_role (db_delete_user ustoreW "u2") "u2" "m1").log
      = ustoreW.log ++ [.deleteUser "u2", .deleteUserRole "u2" "m1"] := by
  have h := delete_user_role_last_role_deletes_user (fun _ => true) ustoreW utokenW "e2"
    u2W { user_id := "u2", merchant_id := "m1", role_id := "admin" } rfl
    (by decide) rfl rfl
  exact h.2 (by decide)

/-- C4: for every optional field merged by the confirm operation onto the
in-memory intent and attempt - setup_future_usage, return_url, metadata,
order_details, connector_metadata, feature_metadata,
allowed_payment_method_types, browser_info, payment_experience,
capture_method, business_sub_label - a field supplied by the request ends up
with the request's value and a field the request omits keeps the previously
stored value. -/
theorem confirm_merge_policy (env : ConfirmEnv) (mt : Option String)
    (req : PaymentsRequest) (md : MandateDetails) (intent : PaymentIntent)
    (attempt : PaymentAttempt) (ship bill : Option Address)
    (res : PaymentIntent × PaymentAttempt × Option String × String × Nat × Option SetupMandate)
    (hok : merge_request_fields env mt req md intent attempt ship bill = .ok res) :
    (∀ v, req.setup_future_usage = some v → res.1.setup_future_usage = some v) ∧
    (req.setup_future_usage = none →
      res.1.setup_future_usage = intent.setup_future_usage) ∧
    (∀ v, req.return_url = some v → res.1.return_url = some v) ∧
    (req.return_url = none → res.1.return_url = intent.return_url) ∧
    (∀ v, req.metadata = some v → res.1.metadata = some v) ∧
    (req.metadata = none → res.1.metadata = intent.metadata) ∧
    (∀ v, req.order_details = some v → res.1.order_details = some v) ∧
    (req.order_details = none → res.1.order_details = intent.order_details) ∧
    (∀ v, req.connector_metadata = some v → res.1.connector_metadata = some v) ∧
    (req.connector_metadata = none →
      res.1.connector_metadata = intent.connector_metadata) ∧
    (∀ v, req.feature_metadata = some v → res.1.feature_metadata = some v) ∧
    (req.feature_metadata = none → res.1.feature_metadata = intent.feature_metadata) ∧
    (∀ v, req.allowed_payment_method_types = some v →
      res.1.allowed_payment_method_types = some v) ∧
    (req.allowed_payment_method_types = none →
      res.1.allowed_payment_method_types = intent.allowed_payment_method_types) ∧
    (∀ v, req.browser_info = some v → res.2.1.browser_info = some v) ∧
    (req.browser_info = none → res.2.1.browser_info = attempt.browser_info) ∧
    (∀ v, req.payment_experience = some v → res.2.1.payment_experience = some v) ∧
    (req.payment_experience = none →
      res.2.1.payment_experience = attempt.payment_experience) ∧
    (∀ v, req.capture_method = some v → res.2.1.capture_method = some v) ∧
    (req.capture_method = none → res.2.1.capture_method = attempt.capture_method) ∧
    (∀ v, req.business_sub_label = some v → res.2.1.business_sub_label = some v) ∧
    (req.business_sub_label = none →
      res.2.1.business_sub_label = attempt.business_sub_label) := by
  obtain ⟨e1, e2, e3, e4, e5, e6, e7, e8, e9, e10, e11, e12⟩ :=
    merge_request_fields_eq_of_ok env mt req md intent attempt ship bill res hok
  refine ⟨fun v h => by rw [e2, h]; rfl, fun h => by rw [e2, h]; rfl,
    fun v h => by rw [e3, h]; rfl, fun h => by rw [e3, h]; rfl,
    fun v h => by rw [e7, h]; rfl, fun h => by rw [e7, h]; rfl,
    fun v h => by rw [e1, h]; rfl, fun h => by rw [e1, h]; rfl,
    fun v h => by rw [e5, h]; rfl, fun h => by rw [e5, h]; rfl,
    fun v h => by rw [e6, h]; rfl, fun h => by rw [e6, h]; rfl,
    fun v h => by rw [e4, h]; rfl, fun h => by rw [e4, h]; rfl,
    fun v h => by rw [e8, h]; rfl, fun h => by rw [e8, h]; rfl,
    fun v h => by rw [e9, h]; rfl, fun h => by rw [e9, h]; rfl,
    fun v h => by rw [e10, h]; rfl, fun h => by rw [e10, h]; rfl,
    fun v h => by rw [e11, h]; rfl, fun h => by rw [e11, h]; rfl⟩

/-- Concrete request fixture supplying most merged fields and omitting the
browser info. -/
def reqFullW : PaymentsRequest :=
  { reqW with
      setup_future_usage := some "off_session"
      return_url := some "https:u"
      metadata := some "md"
      order_details := some "od"
      connector_metadata := some "cm"
      feature_metadata := some "fm"
      allowed_payment_method_types := some "apm"
      payment_experience := some "pe"
      capture_method := some "auto"
      business_sub_label := some "bsl" }

/-- The concrete merge result of reqFullW over the fixtures. -/
def mergeResW :
    PaymentIntent × PaymentAttempt × Option String × String × Nat × Option SetupMandate :=
  match merge_request_fields envW none reqFullW mdW intentW attemptW none none with
  | .ok r => r
  | .error _ => (intentW, attemptW, none, "", 0, none)

/-- Witness for C4 at the concrete fixtures: a supplied field takes the
request's value, the omitted browser info keeps the stored value. -/
theorem confirm_merge_policy_witness :
    merge_request_fields envW none reqFullW mdW intentW attemptW none none
      = .ok mergeResW ∧
    mergeResW.1.return_url = some "https:u" ∧
    mergeResW.2.1.capture_method = some "auto" ∧
    mergeResW.2.1.browser_info = attemptW.browser_info := by
  have hok : merge_request_fields envW none reqFullW mdW intentW attemptW none none
      = .ok mergeResW := rfl
  obtain ⟨c1, c2, c3, c4, c5, c6, c7, c8, c9, c10, c11, c12, c13, c14, c15, c16, c17,
    c18, c19, c20, c21, c22⟩ :=
    confirm_merge_policy envW none reqFullW mdW intentW attemptW none none mergeResW hok
  exact ⟨hok, c3 "https:u" rfl, c19 "auto" rfl, c16 rfl⟩

theorem confirm_stage2_store_connector_responses (store : Store) (req : PaymentsRequest)
    (intent : PaymentIntent) (mid : String) :
    (confirm_stage2_store store req intent mid).connector_responses
      = store.connector_responses := by
  simp only [confirm_stage2_store]
  split
  · rw [insert_mcd_connector_responses, create_or_find_address_connector_responses,
      create_or_find_address_connector_responses]
  · rw [create_or_find_address_connector_responses, create_or_find_address_connector_responses]

/-- C5: for an intent whose status at fetch time is RequiresCustomerAction,
RequiresMerchantAction, RequiresPaymentMethod or RequiresConfirmation, the
attempt versioning policy is SameOld - a successful get_trackers carries
forward the intent's existing active attempt (the attempt identifier in the
working record equals the intent's active-attempt identifier) and reuses the
existing connector-response record: the connector-response table is left
unchanged, nothing is inserted. -/
theorem confirm_same_old_reuses_attempt (env : ConfirmEnv) (store : Store)
    (pid mid : String) (mt : Option String) (req : PaymentsRequest)
    (intent : PaymentIntent) (md : MandateDetails) (ft : Option Nat)
    (store2 : Store) (pd : PaymentData)
    (h1 : find_payment_intent store pid mid = some intent)
    (h2 : env.mandate_details = .ok md)
    (h3 : env.customer_access = .ok ())
    (h5 : env.fulfillment_time = .ok ft)
    (h6 : env.client_secret_auth = .ok ())
    (hs : intent.status = .requiresCustomerAction ∨
      intent.status = .requiresMerchantAction ∨
      intent.status = .requiresPaymentMethod ∨
      intent.status = .requiresConfirmation)
    (hrun : get_trackers env store pid mid mt req = (store2, .ok pd)) :
    pd.payment_attempt.attempt_id = intent.active_attempt ∧
    store2.connector_responses = store.connector_responses := by
  rcases hs with h | h | h | h
  case inr.inl =>
    simp [get_trackers, h1, h2, h3, validate_payment_status_against_not_allowed_statuses,
      confirm_not_allowed_statuses, h] at hrun
  all_goals
    simp only [get_trackers, h1, h2, h3, h5, h6] at hrun
    simp only [validate_payment_status_against_not_allowed_statuses,
      confirm_not_allowed_statuses, h] at hrun
    simp only [List.mem_cons, List.not_mem_nil, or_false, reduceCtorEq, if_false] at hrun
    cases hfind : find_payment_attempt store intent.payment_id mid intent.active_attempt with
    | none => rw [hfind] at hrun; simp at hrun
    | some pa =>
      rw [hfind] at hrun
      cases hcr : find_connector_response (confirm_stage2_store store req intent mid)
          intent.payment_id mid intent.active_attempt with
      | none => rw [hcr] at hrun; simp at hrun
      | some cr =>
        rw [hcr] at hrun
        simp only [confirm_finish] at hrun
        cases hm : merge_request_fields env mt req md intent pa
            (confirm_stage2_addresses store req intent mid).1
            (confirm_stage2_addresses store req intent mid).2 with
        | error e => rw [hm] at hrun; simp at hrun
        | ok res =>
          obtain ⟨i2, a2, tok, cur, amt, sm⟩ := res
          rw [hm] at hrun
          simp only [] at hrun
          injection hrun with hst hpd
          injection hpd with hpd2
          subst hst
          subst hpd2
          constructor
          · have hkeys := find_payment_attempt_keys store intent.payment_id mid
              intent.active_attempt pa hfind
            have heq := merge_request_fields_eq_of_ok env mt req md intent pa
              ((confirm_stage2_addresses store req intent mid).1)
              ((confirm_stage2_addresses store req intent mid).2)
              (i2, a2, tok, cur, amt, sm) hm
            exact heq.2.2.2.2.2.2.2.2.2.2.2.trans hkeys.2.2
          · exact confirm_stage2_store_connector_responses store req intent mid

/-- The concrete get_trackers result on the witness fixtures. -/
def gtResW : Store × Except ApiError PaymentData :=
  get_trackers envW storeW "p1" "m1" none reqW

/-- The store component of the concrete get_trackers run. -/
def gtStoreW : Store := gtResW.1

/-- The working-record component of the concrete get_trackers run. -/
def gtPdW : PaymentData :=
  match gtResW.2 with
  | .ok p => p
  | .error _ => pdW

/-- Witness for C5 at a concrete RequiresConfirmation intent. -/
theorem confirm_same_old_reuses_attempt_witness :
    gtPdW.payment_attempt.attempt_id = intentW.active_attempt ∧
    gtStoreW.connector_responses = storeW.connector_responses :=
  confirm_same_old_reuses_attempt envW storeW "p1" "m1" none reqW intentW mdW none
    gtStoreW gtPdW rfl rfl rfl rfl rfl (Or.inr (Or.inr (Or.inr rfl))) rfl

theorem find?_map_upsert (key creds : String) (l : List (String × String))
    (kv0 : String × String)
    (hfind : l.find? (fun kv => decide (kv.1 = key)) = some kv0) :
    (l.map (fun kv => if kv.1 = key then (key, creds) else kv)).find?
      (fun kv => decide (kv.1 = key)) = some (key, creds) := by
  induction l generalizing kv0 with
  | nil => simp at hfind
  | cons a t ih =>
    by_cases hk : a.1 = key
    · simp [List.find?_cons, hk]
    · rw [List.find?_cons] at hfind
      simp only [hk, decide_eq_true_eq, if_false, decide_eq_false_iff_not,
        not_false_iff, if_neg] at hfind
      simp [List.find?_cons, hk, ih kv0 hfind]

theorem lookup_config_insert (s : Store) (mid : String) (mcd : MerchantConnectorDetails) :
    lookup_config (insert_merchant_connector_creds_to_config s mid mcd)
      (mcd_config_key mid mcd.creds_identifier) = some mcd.creds := by
  simp only [insert_merchant_connector_creds_to_config]
  cases h : lookup_config s (mcd_config_key mid mcd.creds_identifier) with
  | none => simp [lookup_config, List.find?_cons]
  | some v =>
    unfold lookup_config at h
    cases hf : List.find? (fun kv => decide (kv.1 = mcd_config_key mid mcd.creds_identifier))
        s.configs with
    | none => rw [hf] at h; simp at h
    | some kv0 =>
      unfold lookup_config
      rw [find?_map_upsert (mcd_config_key mid mcd.creds_identifier) mcd.creds
        s.configs kv0 hf]
      rfl

/-- C7 (amended): in every fan-out batch of the confirm pipeline an error of a
payment-record task propagates, in the join's inspection order, as the
operation's error, and no later stage runs; already-issued sibling store
effects such as the config upsert are kept, not rolled back.  The results of
the two fire-and-forget tasks - the config upsert of get_trackers and the
customer update of update_trackers - are discarded at their joins, so their
failures do not fail the operation (see the counterexample). -/
theorem confirm_error_propagation :
    (∀ env store pid mid mt req,
      find_payment_intent store pid mid = none →
      get_trackers env store pid mid mt req = (store, .error .paymentNotFound)) ∧
    (∀ env store pid mid mt req intent e,
      find_payment_intent store pid mid = some intent →
      env.mandate_details = .error e →
      get_trackers env store pid mid mt req = (store, .error e)) ∧
    (∀ env store pid mid mt (req : PaymentsRequest) intent md ft mcd,
      find_payment_intent store pid mid = some intent →
      env.mandate_details = .ok md →
      env.customer_access = .ok () →
      env.fulfillment_time = .ok ft →
      env.client_secret_auth = .ok () →
      intent.status = .requiresConfirmation →
      find_payment_attempt store intent.payment_id mid intent.active_attempt = none →
      req.merchant_connector_details = some mcd →
      get_trackers env store pid mid mt req
        = (confirm_stage2_store store req intent mid, .error .paymentNotFound) ∧
      lookup_config (confirm_stage2_store store req intent mid)
        (mcd_config_key mid mcd.creds_identifier) = some mcd.creds) ∧
    (∀ (gap : String → String) store pd customer upd frm src,
      find_payment_attempt store pd.payment_attempt.payment_id
        pd.payment_attempt.merchant_id pd.payment_attempt.attempt_id = none →
      (update_trackers gap store pd customer upd frm src).2 = .error .paymentNotFound) ∧
    (∀ env (gap : String → String) store pid mid mt req customer upd frm src s e,
      get_trackers env store pid mid mt req = (s, .error e) →
      confirm_operation env gap store pid mid mt req customer upd frm src
        = (s, .error e)) := by
  refine ⟨?_, ?_, ?_, ?_, ?_⟩
  · intro env store pid mid mt req h
    simp [get_trackers, h]
  · intro env store pid mid mt req intent e h1 h2
    simp [get_trackers, h1, h2]
  · intro env store pid mid mt req intent md ft mcd h1 h2 h3 h5 h6 hstat hfa hmcd
    constructor
    · simp only [get_trackers, h1, h2, h3, h5, h6]
      simp only [validate_payment_status_against_not_allowed_statuses,
        confirm_not_allowed_statuses, hstat]
      simp only [List.mem_cons, List.not_mem_nil, or_false, reduceCtorEq, if_false]
      rw [hfa]
    · simp only [confirm_stage2_store, hmcd]
      exact lookup_config_insert _ mid mcd
  · intro gap store pd customer upd frm src ha
    exact update_trackers_attempt_missing gap store pd customer upd frm src ha
  · intro env gap store pid mid mt req customer upd frm src s e h
    simp [confirm_operation, h]

/-- Witness for C7 at a concrete store without the intent: the first batch's
intent-fetch failure is the operation's error and the pipeline never reaches
the later stages. -/
theorem confirm_error_propagation_witness :
    get_trackers envW { storeW with intents := [] } "p1" "m1" none reqW
      = ({ storeW with intents := [] }, .error .paymentNotFound) ∧
    confirm_operation envW id { storeW with intents := [] } "p1" "m1" none reqW
        none none none none
      = ({ storeW with intents := [] }, .error .paymentNotFound) := by
  have h := confirm_error_propagation
  have ha := h.1 envW { storeW with intents := [] } "p1" "m1" none reqW rfl
  exact ⟨ha, h.2.2.2.2 envW id { storeW with intents := [] } "p1" "m1" none reqW
    none none none none { storeW with intents := [] } .paymentNotFound ha⟩

/-- Counterexample for C7 as stated: in the three-way persist batch the
customer-update task fails (its row is absent), yet update_trackers succeeds -
the first error encountered in that batch is not returned, because the
customer task's inner result is bound to a wildcard at the join. -/
theorem join_discards_customer_failure :
    (db_update_customer storeW custW.customer_id custW.merchant_id "p2").2
      = .error .notFound ∧
    except_is_ok (update_trackers id storeW pdW (some custW) (some "p2") none none).2
      = true ∧
    (update_trackers id storeW pdW (some custW) (some "p2") none none).2
      ≠ .error .paymentNotFound ∧
    (update_trackers id storeW pdW (some custW) (some "p2") none none).2
      ≠ .error .internalServerError := by
  refine ⟨rfl, by decide, by decide, by decide⟩
